import Mathlib

/-!
Shallow embedding of `wapi/session.py` (the `Session` class of the
wapi-python client) and proofs about its specified behaviour.

Conventions of the embedding:
* Python dictionaries become association lists; `alookup` models `d[k]` /
  `k in d` observation, and updating `d[k] = v` is modelled by consing the
  new binding in front (lookup sees the most recent binding, exactly like
  a dict overwrite).
* Raising an exception becomes returning `.error e` of the `PyError` type;
  methods that mutate `self` are given in a state-passing form returning
  `Session × Except PyError α`, where an error leaves the state exactly as
  the Python object would be left at the point the exception is raised.
* The HTTP transport is an oracle: for the retry loop it is a function
  from the attempt index to the status code returned on that attempt; for
  the curve handlers it is the (already received) response value.
-/

namespace Wapi

/-- Generic association-list lookup, modelling Python dict access. -/
def alookup {α β : Type} [DecidableEq α] : List (α × β) → α → Option β
  | [], _ => none
  | (k, v) :: rest, a => if a = k then some v else alookup rest a

/-- A JSON-ish scalar value appearing in curve metadata records. -/
inductive MValue where
  | str : String → MValue
  | int : Int → MValue
deriving Repr, DecidableEq

/-- Python string-formatting of a metadata value. -/
def MValue.format : MValue → String
  | .str s => s
  | .int n => toString n

/-- Digit-string accumulator for `intOfString` (`none` on a non-digit). -/
def digitsToNatAux : List Char → Nat → Option Nat
  | [], acc => some acc
  | c :: rest, acc =>
    if c.isDigit then digitsToNatAux rest (acc * 10 + (c.toNat - 48))
    else none

/-- A non-empty all-digit character list as a number. -/
def digitsToNat : List Char → Option Nat
  | [] => none
  | l => digitsToNatAux l 0

/-- Python `int(string)`: an optional sign followed by at least one
digit parses to that integer, anything else raises `ValueError`
(modelled as `none`; Python's surrounding-whitespace allowance is not
needed by any claim). -/
def intOfString (s : String) : Option Int :=
  match s.toList with
  | [] => none
  | '-' :: rest => (digitsToNat rest).map (fun n => -(n : Int))
  | '+' :: rest => (digitsToNat rest).map (fun n => (n : Int))
  | l => (digitsToNat l).map (fun n => (n : Int))

/-- Python `int(v)`: an int is itself, a string is parsed, anything
unparsable raises `ValueError` (modelled as `none` here). -/
def MValue.toIntCoerce : MValue → Option Int
  | .int n => some n
  | .str s => intOfString s

/-- A metadata record: the parsed JSON object returned by the curve
endpoints, as an association list of fields. -/
abbrev Metadata : Type := List (String × MValue)

/-- Field access on a metadata record (`metadata[key]`).  Every use in the
source follows a presence check of the key, so the default branch of this
total model is never reached. -/
def Metadata.get (m : Metadata) (k : String) : MValue :=
  (alookup m k).getD (.int 0)

/-- Presence test (`key in metadata`). -/
def Metadata.has (m : Metadata) (k : String) : Bool :=
  (alookup m k).isSome

/-- The exceptions `session.py` can raise (plus Python's built-in
`ValueError`, which `int(...)` raises on a bad literal). -/
inductive PyError where
  | configException : String → PyError
  | metadataException : String → PyError
  | curveException : String → PyError
  | valueError : String → PyError
deriving Repr, DecidableEq

/-- Is this error the `MetadataException` kind? -/
def PyError.isMetadata : PyError → Bool
  | .metadataException _ => true
  | _ => false

/-- Modelled from the spec: the `auth.OAuth` provider constructed by
`Session.configure` / `Session.read_config_file`.  The `auth` module is
not part of the sources; only the constructor arguments are consumed
here, per the spec's AuthProvider contract. -/
structure OAuth where
  client_id : String
  client_secret : String
  auth_urlbase : String
deriving Repr, DecidableEq

/-- The four structural curve variants (`curves.TimeSeriesCurve` etc.).
Modelled from the spec: the `curves` module is not part of the sources;
the spec says each variant carries the integer id and the metadata record
plus a back-reference to the session (not representable in a value model
and unused by the claims). -/
inductive CurveVariant where
  | timeSeries
  | tagged
  | instances
  | taggedInstances
deriving Repr, DecidableEq

/-- A curve object as produced by a registry constructor call
`ctor(id, metadata, self)`.  `make_curve` passes `metadata = none`. -/
structure Curve where
  variant : CurveVariant
  id : Int
  metadata : Option Metadata
deriving Repr, DecidableEq

/-- Modelled from the spec: the `name` attribute a curve constructor sets
from its metadata record (`curves` module not in the sources; the spec
lists `name` among the curve's fields, taken from the metadata). -/
def Curve.name (c : Curve) : MValue :=
  match c.metadata with
  | some m => m.get "name"
  | none => .str ""

/-- Modelled from the spec: the tag constants `util.TIME_SERIES`,
`util.TAGGED`, `util.INSTANCES`, `util.TAGGED_INSTANCES` (the `util`
module is not in the sources), taken as their four distinct names. -/
def TIME_SERIES : MValue := .str "TIME_SERIES"

def TAGGED : MValue := .str "TAGGED"

def INSTANCES : MValue := .str "INSTANCES"

def TAGGED_INSTANCES : MValue := .str "TAGGED_INSTANCES"

/-- `Session._curve_types`: the fixed registry mapping a curve-type tag to
the variant constructor. -/
def curve_types : List (MValue × CurveVariant) :=
  [(TIME_SERIES, .timeSeries), (TAGGED, .tagged),
   (INSTANCES, .instances), (TAGGED_INSTANCES, .taggedInstances)]

/-- `Session._meta_keys`: the mandatory metadata keys, in checking order. -/
def meta_keys : List String :=
  ["id", "name", "frequency", "time_zone", "curve_type"]

/-- `Session._search_terms`: the allow-list of search criteria keys. -/
def search_terms : List String :=
  ["query", "id", "name", "commodity", "category", "area", "station",
   "source", "scenario", "unit", "time_zone", "version", "frequency",
   "data_type", "curve_state"]

/-- `Session._attributes`: the valid attribute names for `get_attribute`. -/
def attributes : List String :=
  ["commodities", "categories", "areas", "stations", "sources", "scenarios",
   "units", "time_zones", "versions", "frequencies", "data_types",
   "curve_states", "curve_types"]

/-- The mutable state of a `Session` object: `urlbase`, the write-once
`auth` field, and the two caches (`_curve_cache`, `_name_cache`). -/
structure Session where
  urlbase : String
  auth : Option OAuth
  curve_cache : List (Int × Curve)
  name_cache : List (MValue × Int)
deriving Repr, DecidableEq

/-- A freshly constructed `Session()` before any configuration. -/
def Session.new : Session :=
  { urlbase := "https://api.wattsight.com"
    auth := none
    curve_cache := []
    name_cache := [] }

/-- The fields `read_config_file` consumes from a parsed configuration
file: `common.urlbase`, `common.auth_type`, and (when OAuth) the `OAuth`
section's `id`, `secret`, `auth_urlbase`.  The model assumes the file
provides the `common` options it reads (the parser raises otherwise,
which no claim exercises). -/
structure ConfigFile where
  urlbase : String
  auth_type : String
  oauth_id : String
  oauth_secret : String
  oauth_auth_urlbase : String
deriving Repr, DecidableEq

/-- `Session.read_config_file`, state-passing.  Raises `ConfigException`
if `auth` is already set; otherwise applies the file's `urlbase` and, when
`auth_type == 'OAuth'`, constructs the auth provider. -/
def Session.read_config_file (s : Session) (cfg : ConfigFile) :
    Session × Except PyError Unit :=
  if s.auth.isSome then
    (s, .error (.configException "Session configuration is already done"))
  else
    let s1 := { s with urlbase := cfg.urlbase }
    if cfg.auth_type = "OAuth" then
      ({ s1 with auth := some ⟨cfg.oauth_id, cfg.oauth_secret, cfg.oauth_auth_urlbase⟩ },
       .ok ())
    else
      (s1, .ok ())

/-- `Session.configure`, state-passing.  Raises `ConfigException` if
`auth` is already set; defaults the auth urlbase when omitted. -/
def Session.configure (s : Session) (client_id client_secret : String)
    (auth_urlbase : Option String) : Session × Except PyError Unit :=
  if s.auth.isSome then
    (s, .error (.configException "Session configuration is already done"))
  else
    let aub := auth_urlbase.getD "https://auth.wattsight.com/"
    ({ s with auth := some ⟨client_id, client_secret, aub⟩ }, .ok ())

/-- One configuration attempt on a session: either of the two
configuration entry points with its arguments. -/
inductive ConfigOp where
  | readConfigFile : ConfigFile → ConfigOp
  | configureOp : String → String → Option String → ConfigOp
deriving Repr, DecidableEq

/-- Apply one configuration attempt. -/
def configStep (s : Session) : ConfigOp → Session × Except PyError Unit
  | .readConfigFile cfg => s.read_config_file cfg
  | .configureOp cid secret aub => s.configure cid secret aub

/-- Number of `auth` transitions from absent to present along a sequence
of configuration attempts (an attempt that raises leaves the state as the
Python object is left: unchanged). -/
def authFlips : Session → List ConfigOp → Nat
  | _, [] => 0
  | s, op :: rest =>
    let s' := (configStep s op).1
    (if s.auth.isNone ∧ s'.auth.isSome then 1 else 0) + authFlips s' rest

/-- The status test of the retry policy:
`(500 <= res.status_code < 600) or res.status_code == 408`. -/
def transientStatus (status : Nat) : Prop :=
  (500 ≤ status ∧ status < 600) ∨ status = 408

instance (status : Nat) : Decidable (transientStatus status) := by
  unfold transientStatus; infer_instance

/-- `Session.data_request`, reduced to the retry loop over the status of
successive transport attempts.  `transport k` is the status code the
`k`-th invocation of `self._session.send` returns; the result is the
final status together with the total number of transport invocations.
URL joining, body encoding and headers do not depend on the response and
are omitted; the `time.sleep` delay has no effect on the result. -/
def data_request (transport : Nat → Nat) (attempt : Nat) :
    Nat → Nat × Nat
  | 0 => (transport attempt, 1)
  | retries + 1 =>
    let status := transport attempt
    if transientStatus status then
      let p := data_request transport (attempt + 1) retries
      (p.1, p.2 + 1)
    else
      (status, 1)

/-- The first mandatory key missing from a metadata record, if any
(the `for key in self._meta_keys` loop checks them in order). -/
def firstMissingKey (m : Metadata) : Option String :=
  meta_keys.find? (fun k => !(m.has k))

/-- `Session._build_curve`, state-passing: validate the mandatory keys,
coerce `id` to an integer, dispatch on the `curve_type` tag, and insert
the curve into both caches.  On any raise the caches are untouched (the
source mutates only after all checks pass). -/
def Session.build_curve (s : Session) (m : Metadata) :
    Session × Except PyError Curve :=
  match firstMissingKey m with
  | some k =>
    (s, .error (.metadataException
      ("Mandatory key " ++ k ++ " not found in metadata")))
  | none =>
    match (m.get "id").toIntCoerce with
    | none =>
      (s, .error (.valueError
        ("invalid literal for int: " ++ (m.get "id").format)))
    | some curve_id =>
      match alookup curve_types (m.get "curve_type") with
      | some variant =>
        let c : Curve := ⟨variant, curve_id, some m⟩
        ({ s with
            curve_cache := (curve_id, c) :: s.curve_cache
            name_cache := (c.name, curve_id) :: s.name_cache },
         .ok c)
      | none =>
        (s, .error (.curveException
          ("Unknown curve type (" ++ (m.get "curve_type").format ++ ")")))

/-- An HTTP response as consumed by the single-curve handler: the status
code, the decoded content (for error messages) and the parsed JSON body.
`requests`' `response.ok` is `status_code < 400`. -/
structure CurveResponse where
  status_code : Nat
  content : String
  jsonBody : Metadata
deriving Repr, DecidableEq

/-- `response.ok` of the `requests` library. -/
def CurveResponse.respOk (r : CurveResponse) : Bool :=
  r.status_code < 400

/-- A response whose JSON body is a list of metadata records, as consumed
by the multi-curve handler. -/
structure MultiResponse where
  status_code : Nat
  content : String
  jsonBody : List Metadata
deriving Repr, DecidableEq

/-- `response.ok` of the `requests` library. -/
def MultiResponse.respOk (r : MultiResponse) : Bool :=
  r.status_code < 400

/-- `Session.handle_single_curve_response`, state-passing. -/
def Session.handle_single_curve_response (s : Session) (r : CurveResponse) :
    Session × Except PyError Curve :=
  if !r.respOk then
    (s, .error (.metadataException ("Failed to load curve: " ++ r.content)))
  else
    s.build_curve r.jsonBody

/-- The loop of `Session.handle_multi_curve_response`: build each record
in order.  A failure mid-list leaves the curves already built in the
caches, exactly as the Python loop does. -/
def Session.build_curves (s : Session) :
    List Metadata → Session × Except PyError (List Curve)
  | [] => (s, .ok [])
  | m :: rest =>
    match s.build_curve m with
    | (s1, .ok c) =>
      match s1.build_curves rest with
      | (s2, .ok cs) => (s2, .ok (c :: cs))
      | (s2, .error e) => (s2, .error e)
    | (s1, .error e) => (s1, .error e)

/-- `Session.handle_multi_curve_response`, state-passing. -/
def Session.handle_multi_curve_response (s : Session) (r : MultiResponse) :
    Session × Except PyError (List Curve) :=
  if !r.respOk then
    (s, .error (.metadataException ("Curve search failed: " ++ r.content)))
  else
    s.build_curves r.jsonBody

/-- What the first, purely local phase of `Session.get_curve` decides:
raise, answer from the cache with no network call, or issue a GET request
for the given path. -/
inductive GetCurveLocal where
  | raised : PyError → GetCurveLocal
  | cached : Curve → GetCurveLocal
  | request : String → GetCurveLocal
deriving Repr, DecidableEq

/-- The local phase of `Session.get_curve(id, name)`: argument check,
name → id resolution through `_name_cache`, and the `_curve_cache` hit
test; on a miss, the path of the network request it proceeds to issue. -/
def Session.get_curve_local (s : Session) (id : Option Int)
    (name : Option MValue) : GetCurveLocal :=
  if id = none ∧ name = none then
    .raised (.metadataException "No curve specified")
  else
    let id := match id with
      | none =>
        match name with
        | some nm => alookup s.name_cache nm
        | none => none
      | some i => some i
    match id with
    | some i =>
      match alookup s.curve_cache i with
      | some c => .cached c
      | none => .request ("/api/curves/get?id=" ++ toString i)
    | none =>
      .request ("/api/curves/get?name="
        ++ (match name with | some nm => nm.format | none => "None"))

/-- `Session.get_curve`, state-passing, with the network's answer (used
only when the local phase issues a request) supplied as an oracle. -/
def Session.get_curve (s : Session) (id : Option Int) (name : Option MValue)
    (r : CurveResponse) : Session × Except PyError Curve :=
  match s.get_curve_local id name with
  | .raised e => (s, .error e)
  | .cached c => (s, .ok c)
  | .request _ => s.handle_single_curve_response r

/-- A search criterion value: a string or other scalar, or an iterable
that is not a string (`hasattr(val, '__iter__') and not isinstance(val,
str)`), with elements rendered by Python string-formatting. -/
inductive SearchVal where
  | scalar : String → SearchVal
  | iter : List String → SearchVal
deriving Repr, DecidableEq

/-- The `key=value` pairs one criterion contributes to the query. -/
def searchPairs : String × SearchVal → List String
  | (k, .scalar v) => [k ++ "=" ++ v]
  | (k, .iter vs) => vs.map (fun v => k ++ "=" ++ v)

/-- The query-building loop of `Session.search`: validate each key
against the allow-list and accumulate `key=value` pairs in order. -/
def searchArgs : List (String × SearchVal) → Except PyError (List String)
  | [] => .ok []
  | (k, v) :: rest =>
    if k ∈ search_terms then
      match searchArgs rest with
      | .ok args => .ok (searchPairs (k, v) ++ args)
      | .error e => .error e
    else
      .error (.metadataException ("Illegal search parameter " ++ k))

/-- The path (with query string) `Session.search` requests, or the error
it raises before any network call. -/
def searchPath (kwargs : List (String × SearchVal)) : Except PyError String :=
  match searchArgs kwargs with
  | .ok args =>
    .ok ("/api/curves" ++
      (if args.isEmpty then "" else "?" ++ String.intercalate "&" args))
  | .error e => .error e

/-- `Session.search`, state-passing, with the network's answer (used only
when all criteria validate) supplied as an oracle. -/
def Session.search (s : Session) (kwargs : List (String × SearchVal))
    (r : MultiResponse) : Session × Except PyError (List Curve) :=
  match searchPath kwargs with
  | .ok _ => s.handle_multi_curve_response r
  | .error e => (s, .error e)

/-- `Session.make_curve`: an uninitialized curve straight from the
registry, never cached. -/
def Session.make_curve (_s : Session) (id : Int) (curve_type : MValue) :
    Except PyError Curve :=
  match alookup curve_types curve_type with
  | some variant => .ok ⟨variant, id, none⟩
  | none => .error (.curveException "Bad curve type requested")

/-- An attribute-endpoint response: status and bodies. -/
structure AttrResponse where
  status_code : Nat
  content : String
  jsonBody : String
deriving Repr, DecidableEq

/-- `Session.get_attribute`, with the network's answer as an oracle.
`some body` on 200, `none` on 204, `MetadataException` otherwise; the
session state is never modified. -/
def Session.get_attribute (_s : Session) (attr : String) (r : AttrResponse) :
    Except PyError (Option String) :=
  if attr ∉ attributes then
    .error (.metadataException ("Attribute " ++ attr ++ " is not valid"))
  else if r.status_code = 200 then
    .ok (some r.jsonBody)
  else if r.status_code = 204 then
    .ok none
  else
    .error (.metadataException
      ("Failed loading " ++ attr ++ ": " ++ r.content))

/-- One `Session` operation together with the oracle response its network
call (if any) receives. -/
inductive SessionOp where
  | getCurveOp : Option Int → Option MValue → CurveResponse → SessionOp
  | searchOp : List (String × SearchVal) → MultiResponse → SessionOp
  | makeCurveOp : Int → MValue → SessionOp
  | getAttributeOp : String → AttrResponse → SessionOp
  | buildCurveOp : Metadata → SessionOp
  | readConfigFileOp : ConfigFile → SessionOp
  | configureSessionOp : String → String → Option String → SessionOp
deriving Repr, DecidableEq

/-- The session state after one operation, whether it returned or raised
(`make_curve` and `get_attribute` never touch the session state). -/
def Session.applyOp (s : Session) : SessionOp → Session
  | .getCurveOp id nm r => (s.get_curve id nm r).1
  | .searchOp kwargs r => (s.search kwargs r).1
  | .makeCurveOp _ _ => s
  | .getAttributeOp _ _ => s
  | .buildCurveOp m => (s.build_curve m).1
  | .readConfigFileOp cfg => (s.read_config_file cfg).1
  | .configureSessionOp cid secret aub => (s.configure cid secret aub).1

/-- Cache consistency: every name-cache entry resolves to an id that is
present in the curve cache. -/
def cacheConsistent (s : Session) : Prop :=
  ∀ nm i, alookup s.name_cache nm = some i →
    (alookup s.curve_cache i).isSome

/-! ### Concrete fixtures used by witnesses and counterexamples -/

/-- The spec's scenario-6 metadata record. -/
def m42 : Metadata :=
  [("id", .str "42"), ("name", .str "Oslo Temp"), ("frequency", .str "H"),
   ("time_zone", .str "CET"), ("curve_type", TIME_SERIES)]

/-- A record with every mandatory key but an unregistered curve type. -/
def mBadType : Metadata :=
  [("id", .str "42"), ("name", .str "Oslo Temp"), ("frequency", .str "H"),
   ("time_zone", .str "CET"), ("curve_type", .str "BOGUS")]

/-- A record with every mandatory key but an id that is no integer. -/
def mBadId : Metadata :=
  [("id", .str "x"), ("name", .str "Oslo Temp"), ("frequency", .str "H"),
   ("time_zone", .str "CET"), ("curve_type", TIME_SERIES)]

/-- A record missing `curve_type` (the other four keys present). -/
def mNoCurveType : Metadata :=
  [("id", .str "42"), ("name", .str "Oslo Temp"), ("frequency", .str "H"),
   ("time_zone", .str "CET")]

/-- A configuration file whose `auth_type` is not `OAuth`. -/
def cfgNoAuth : ConfigFile :=
  { urlbase := "https://example.invalid"
    auth_type := "None"
    oauth_id := ""
    oauth_secret := ""
    oauth_auth_urlbase := "" }

/-- The session after building the scenario-6 curve on a fresh session. -/
def s42 : Session := (Session.new.build_curve m42).1

/-- The transport of the spec's retry scenario: 503 on the first three
attempts, 200 from the fourth on. -/
def transport503x3 : Nat → Nat := fun k => if k < 3 then 503 else 200

/-! ### Helper lemmas -/

theorem alookup_cons {α β : Type} [DecidableEq α] (k : α) (v : β)
    (l : List (α × β)) (a : α) :
    alookup ((k, v) :: l) a = if a = k then some v else alookup l a := rfl

theorem configStep_of_some (s : Session) (op : ConfigOp)
    (h : s.auth.isSome = true) :
    configStep s op =
      (s, .error (.configException "Session configuration is already done")) := by
  cases op with
  | readConfigFile cfg =>
    simp [configStep, Session.read_config_file, h]
  | configureOp cid secret aub =>
    simp [configStep, Session.configure, h]

theorem authFlips_of_some (s : Session) (ops : List ConfigOp)
    (h : s.auth.isSome = true) : authFlips s ops = 0 := by
  induction ops generalizing s with
  | nil => rfl
  | cons op rest ih =>
    rw [authFlips, configStep_of_some s op h]
    simp only [Option.isNone_iff_eq_none]
    rw [ih s h]
    have : s.auth ≠ none := by
      intro hn; rw [hn] at h; simp at h
    simp [this]

theorem data_request_allTransient (t : Nat → Nat)
    (h : ∀ k, transientStatus (t k)) :
    ∀ n a, data_request t a n = (t (a + n), n + 1) := by
  intro n
  induction n with
  | zero => intro a; simp [data_request]
  | succ m ih =>
    intro a
    rw [data_request]
    simp only [if_pos (h a), ih (a + 1)]
    have : a + 1 + m = a + (m + 1) := by omega
    rw [this]

/-! ### Claim theorems -/

/-- C1: once a configuration operation has set `auth`, any later
configuration attempt (any combination of `read_config_file` and
`configure`, in any order) raises `ConfigException` and leaves the
session unchanged; and along any sequence of configuration attempts the
`auth` field goes from absent to present at most once. -/
theorem claim_C1_config_write_once :
    (∀ s op, s.auth.isSome = true →
      configStep s op =
        (s, .error (.configException "Session configuration is already done"))) ∧
    (∀ s ops, authFlips s ops ≤ 1) := by
  refine ⟨configStep_of_some, ?_⟩
  intro s ops
  induction ops generalizing s with
  | nil => simp [authFlips]
  | cons op rest ih =>
    rw [authFlips]
    by_cases h : ((configStep s op).1).auth.isSome = true
    · rw [authFlips_of_some _ _ h]
      split <;> omega
    · have hno : ¬ (s.auth.isNone ∧ ((configStep s op).1).auth.isSome) := by
        intro hc
        exact h hc.2
      rw [if_neg hno]
      simpa using ih (configStep s op).1

/-- An already-configured session, for the C1 witness. -/
def sConfigured : Session := (Session.new.configure "a" "b" none).1

/-- C1 witness: a second configuration attempt on a configured session
fails with `ConfigException`. -/
theorem claim_C1_config_write_once_witness :
    configStep sConfigured (.configureOp "c" "d" none) =
      (sConfigured,
       .error (.configException "Session configuration is already done")) :=
  claim_C1_config_write_once.1 sConfigured (.configureOp "c" "d" none) rfl

/-- C2: with an always-transient transport, a retry budget of `n` makes
exactly `n + 1` transport invocations and returns the final response;
with the 503,503,503,200 transport, budget 4 returns 200 after exactly 4
invocations and budget 2 returns 503 after exactly 3 invocations. -/
theorem claim_C2_retry_counts :
    (∀ t n, (∀ k, transientStatus (t k)) →
      data_request t 0 n = (t n, n + 1)) ∧
    data_request transport503x3 0 4 = (200, 4) ∧
    data_request transport503x3 0 2 = (503, 3) := by
  refine ⟨?_, ?_, ?_⟩
  · intro t n h
    simpa using data_request_allTransient t h n 0
  · rfl
  · rfl

/-- C2 witness: an all-503 transport with budget 2 yields the final 503
after 3 invocations. -/
theorem claim_C2_retry_counts_witness :
    data_request (fun _ => 503) 0 2 = (503, 3) :=
  claim_C2_retry_counts.1 (fun _ => 503) 2
    (fun _ => Or.inl (by norm_num))

/-- C3: a response whose status is neither 408 nor in [500,600) is
returned as-is after a single transport invocation, for any retry
budget; and in every case `data_request` returns the raw response of
some attempt (it never raises on HTTP status: its result is always one
of the transport's responses). -/
theorem claim_C3_nontransient_returned_as_is :
    (∀ t a r, ¬ transientStatus (t a) → data_request t a r = (t a, 1)) ∧
    (∀ t a r, ∃ k, k ≤ r ∧ data_request t a r = (t (a + k), k + 1)) := by
  constructor
  · intro t a r h
    cases r with
    | zero => rfl
    | succ m =>
      rw [data_request]
      simp [if_neg h]
  · intro t a r
    induction r generalizing a with
    | zero => exact ⟨0, le_rfl, by simp [data_request]⟩
    | succ m ih =>
      by_cases h : transientStatus (t a)
      · obtain ⟨k, hk, he⟩ := ih (a + 1)
        refine ⟨k + 1, by omega, ?_⟩
        rw [data_request]
        simp only [if_pos h, he]
        have harith : a + 1 + k = a + (k + 1) := by omega
        rw [harith]
      · exact ⟨0, by omega, by rw [data_request]; simp [if_neg h]⟩

/-- C3 witness: a 404 is returned as-is with one invocation even with
retry budget 4. -/
theorem claim_C3_nontransient_returned_as_is_witness :
    data_request (fun _ => 404) 0 4 = (404, 1) :=
  claim_C3_nontransient_returned_as_is.1 (fun _ => 404) 0 4 (by decide)

theorem firstMissingKey_eq_none (m : Metadata)
    (h : ∀ k ∈ meta_keys, m.has k = true) : firstMissingKey m = none := by
  rw [firstMissingKey, List.find?_eq_none]
  intro k hk
  simp [h k hk]

/-- C4: on a record with all five mandatory keys, an integer-convertible
id and a registered curve-type tag, `_build_curve` returns a curve of the
registered variant with the coerced integer id, and afterwards the curve
cache at that id holds that curve and the name cache maps the record's
name to that id. -/
theorem claim_C4_build_curve_success :
    ∀ (s : Session) (m : Metadata) (i : Int) (variant : CurveVariant),
      (∀ k ∈ meta_keys, m.has k = true) →
      (m.get "id").toIntCoerce = some i →
      alookup curve_types (m.get "curve_type") = some variant →
      (s.build_curve m).2 = .ok ⟨variant, i, some m⟩ ∧
      alookup (s.build_curve m).1.curve_cache i =
        some ⟨variant, i, some m⟩ ∧
      alookup (s.build_curve m).1.name_cache (m.get "name") = some i := by
  intro s m i variant hkeys hid hct
  have hnone := firstMissingKey_eq_none m hkeys
  simp [Session.build_curve, hnone, hid, hct, alookup_cons, Curve.name]

/-- C4 witness: the spec's scenario-6 metadata on a fresh session yields
the time-series curve with id 42 and both cache entries. -/
theorem claim_C4_build_curve_success_witness :
    (Session.new.build_curve m42).2 = .ok ⟨.timeSeries, 42, some m42⟩ ∧
    alookup (Session.new.build_curve m42).1.curve_cache 42 =
      some ⟨.timeSeries, 42, some m42⟩ ∧
    alookup (Session.new.build_curve m42).1.name_cache
      (.str "Oslo Temp") = some 42 :=
  claim_C4_build_curve_success Session.new m42 42 .timeSeries
    (by decide) (by decide) (by decide)

/-- C5: a record missing a mandatory key makes `_build_curve` raise
`MetadataException` naming the first missing key (and a missing key
guarantees one is found); a record with all keys, an integer id and an
unregistered curve-type tag makes it raise `CurveException`; in both
cases the caches are left unchanged (the resulting state is `s`). -/
theorem claim_C5_build_curve_validation :
    (∀ (m : Metadata) k, k ∈ meta_keys → m.has k = false →
      (firstMissingKey m).isSome = true) ∧
    (∀ (s : Session) (m : Metadata) (k : String), firstMissingKey m = some k →
      k ∈ meta_keys ∧ m.has k = false ∧
      s.build_curve m =
        (s, .error (.metadataException
          ("Mandatory key " ++ k ++ " not found in metadata")))) ∧
    (∀ (s : Session) (m : Metadata) (i : Int), (∀ k ∈ meta_keys, m.has k = true) →
      (m.get "id").toIntCoerce = some i →
      alookup curve_types (m.get "curve_type") = none →
      s.build_curve m =
        (s, .error (.curveException
          ("Unknown curve type (" ++ (m.get "curve_type").format ++ ")")))) := by
  refine ⟨?_, ?_, ?_⟩
  · intro m k hk hmiss
    rw [firstMissingKey, List.find?_isSome]
    exact ⟨k, hk, by simp [hmiss]⟩
  · intro s m k heq
    refine ⟨List.mem_of_find?_eq_some heq, ?_, ?_⟩
    · have := List.find?_some heq
      simpa using this
    · simp [Session.build_curve, heq]
  · intro s m i hkeys hid hct
    have hnone := firstMissingKey_eq_none m hkeys
    simp [Session.build_curve, hnone, hid, hct]

/-- C5 witness: missing `curve_type` raises the naming `MetadataException`
and an unregistered tag raises `CurveException`, both leaving the fresh
session unchanged. -/
theorem claim_C5_build_curve_validation_witness :
    (firstMissingKey mNoCurveType).isSome = true ∧
    Session.new.build_curve mNoCurveType =
      (Session.new, .error (.metadataException
        "Mandatory key curve_type not found in metadata")) ∧
    Session.new.build_curve mBadType =
      (Session.new, .error (.curveException
        "Unknown curve type (BOGUS)")) :=
  ⟨claim_C5_build_curve_validation.1 mNoCurveType "curve_type"
      (by decide) (by decide),
   (claim_C5_build_curve_validation.2.1 Session.new mNoCurveType
      "curve_type" (by decide)).2.2,
   claim_C5_build_curve_validation.2.2 Session.new mBadType 42
      (by decide) (by decide) (by decide)⟩

/-- C6 counterexample: with all mandatory keys present but an id that is
not convertible to an integer, `_build_curve` fails with Python's
`ValueError` raised by `int(...)`, which is not the `MetadataException`
kind — refuting the claim that the coercion failure surfaces as a
`MetadataError`. -/
theorem claim_C6_counterexample :
    (Session.new.build_curve mBadId).2 =
      .error (.valueError "invalid literal for int: x") ∧
    PyError.isMetadata (.valueError "invalid literal for int: x") = false :=
  ⟨rfl, rfl⟩

/-- C6 (amended): on a record with all five mandatory keys whose id is
not convertible to an integer, `_build_curve` fails with the raw
`ValueError` from the `int` coercion (not a `MetadataException`), and
the caches are left unchanged. -/
theorem claim_C6_bad_id_value_error :
    ∀ (s : Session) (m : Metadata), (∀ k ∈ meta_keys, m.has k = true) →
      (m.get "id").toIntCoerce = none →
      s.build_curve m =
        (s, .error (.valueError
          ("invalid literal for int: " ++ (m.get "id").format))) := by
  intro s m hkeys hid
  have hnone := firstMissingKey_eq_none m hkeys
  simp [Session.build_curve, hnone, hid]

/-- C6 witness: the concrete record with id `"x"` fails with the
`ValueError`, the session unchanged. -/
theorem claim_C6_bad_id_value_error_witness :
    Session.new.build_curve mBadId =
      (Session.new, .error (.valueError "invalid literal for int: x")) :=
  claim_C6_bad_id_value_error Session.new mBadId (by decide) (by decide)

/-- C7: a curve previously cached under a name is returned by
`get_curve(name=...)` straight from the cache: the local phase answers
`.cached`, and the full call returns the cached curve with the session
unchanged for every possible network response — so no network call is
made; likewise `get_curve(id=...)` for a cached id. -/
theorem claim_C7_get_curve_cache_hit :
    (∀ (s : Session) (nm : MValue) (i : Int) (c : Curve),
      alookup s.name_cache nm = some i →
      alookup s.curve_cache i = some c →
      s.get_curve_local none (some nm) = .cached c ∧
      ∀ r, s.get_curve none (some nm) r = (s, .ok c)) ∧
    (∀ (s : Session) (i : Int) (c : Curve) (nm : Option MValue),
      alookup s.curve_cache i = some c →
      s.get_curve_local (some i) nm = .cached c ∧
      ∀ r, s.get_curve (some i) nm r = (s, .ok c)) := by
  constructor
  · intro s nm i c hn hc
    have hl : s.get_curve_local none (some nm) = .cached c := by
      simp [Session.get_curve_local, hn, hc]
    exact ⟨hl, fun r => by simp [Session.get_curve, hl]⟩
  · intro s i c nm hc
    have hl : s.get_curve_local (some i) nm = .cached c := by
      simp [Session.get_curve_local, hc]
    exact ⟨hl, fun r => by simp [Session.get_curve, hl]⟩

/-- C7 witness: after building the scenario-6 curve, lookups by its name
and by its id answer from the cache. -/
theorem claim_C7_get_curve_cache_hit_witness :
    s42.get_curve_local none (some (.str "Oslo Temp")) =
      .cached ⟨.timeSeries, 42, some m42⟩ ∧
    s42.get_curve_local (some 42) none =
      .cached ⟨.timeSeries, 42, some m42⟩ :=
  ⟨(claim_C7_get_curve_cache_hit.1 s42 (.str "Oslo Temp") 42
      ⟨.timeSeries, 42, some m42⟩ rfl rfl).1,
   (claim_C7_get_curve_cache_hit.2 s42 42
      ⟨.timeSeries, 42, some m42⟩ none rfl).1⟩

/-- C8: with every criterion key in the allow-list, the search query is
the ordered concatenation of the per-criterion `key=value` pairs (an
iterable value one pair per element in its order, a scalar a single
pair) joined with `&`; `search(area=["NO","SE"])` requests
`/api/curves?area=NO&area=SE`; a key outside the allow-list (the first
offending one) fails with `MetadataException` naming it, and `search`
then returns that error with the session unchanged for every possible
network response — before any network call. -/
theorem claim_C8_search_query :
    (∀ kwargs : List (String × SearchVal),
      (∀ k ∈ kwargs.map Prod.fst, k ∈ search_terms) →
      searchArgs kwargs = .ok (kwargs.flatMap searchPairs) ∧
      searchPath kwargs = .ok ("/api/curves" ++
        (if (kwargs.flatMap searchPairs).isEmpty then ""
         else "?" ++ String.intercalate "&" (kwargs.flatMap searchPairs)))) ∧
    searchPath [("area", .iter ["NO", "SE"])] =
      .ok "/api/curves?area=NO&area=SE" ∧
    (∀ (pre : List (String × SearchVal)) (k : String) (v : SearchVal) post,
      k ∉ search_terms →
      (∀ k' ∈ pre.map Prod.fst, k' ∈ search_terms) →
      searchPath (pre ++ (k, v) :: post) =
        .error (.metadataException ("Illegal search parameter " ++ k))) ∧
    (∀ (s : Session) kwargs (r : MultiResponse) (e : PyError),
      searchPath kwargs = .error e →
      s.search kwargs r = (s, .error e)) := by
  have hargs : ∀ kwargs : List (String × SearchVal),
      (∀ k ∈ kwargs.map Prod.fst, k ∈ search_terms) →
      searchArgs kwargs = .ok (kwargs.flatMap searchPairs) := by
    intro kwargs
    induction kwargs with
    | nil => intro _; rfl
    | cons kv rest ih =>
      intro h
      obtain ⟨k, v⟩ := kv
      have hk : k ∈ search_terms := h k (by simp)
      have hrest := ih (fun k' hk' => h k' (by simp [hk']))
      rw [searchArgs, if_pos hk, hrest]
      simp
  refine ⟨?_, ?_, ?_, ?_⟩
  · intro kwargs h
    have ha := hargs kwargs h
    exact ⟨ha, by simp [searchPath, ha]⟩
  · rfl
  · intro pre k v post hk
    have herr : ∀ pre2 : List (String × SearchVal),
        (∀ k' ∈ pre2.map Prod.fst, k' ∈ search_terms) →
        searchArgs (pre2 ++ (k, v) :: post) =
          .error (.metadataException ("Illegal search parameter " ++ k)) := by
      intro pre2
      induction pre2 with
      | nil =>
        intro _
        rw [List.nil_append, searchArgs, if_neg hk]
      | cons kv2 rest2 ih2 =>
        intro hpre
        obtain ⟨k2, v2⟩ := kv2
        have hk2 : k2 ∈ search_terms := hpre k2 (by simp)
        have htail := ih2 (fun x hx => hpre x (by simp [hx]))
        rw [List.cons_append, searchArgs, if_pos hk2, htail]
    intro hpre
    simp [searchPath, herr pre hpre]
  · intro s kwargs r e h
    simp [Session.search, h]

/-- C8 witness: a mixed iterable/scalar criterion list expands in order,
and an illegal key after a legal one fails with the naming error. -/
theorem claim_C8_search_query_witness :
    searchArgs [("area", .iter ["NO", "SE"]), ("name", .scalar "X")] =
      .ok ["area=NO", "area=SE", "name=X"] ∧
    searchPath [("area", .scalar "NO"), ("foo", .scalar "x")] =
      .error (.metadataException "Illegal search parameter foo") :=
  ⟨(claim_C8_search_query.1
      [("area", .iter ["NO", "SE"]), ("name", .scalar "X")] (by decide)).1,
   claim_C8_search_query.2.2.1 [("area", .scalar "NO")] "foo"
      (.scalar "x") [] (by decide) (by decide)⟩

theorem cacheConsistent_build_curve (s : Session) (m : Metadata)
    (h : cacheConsistent s) : cacheConsistent (s.build_curve m).1 := by
  unfold Session.build_curve
  split
  · exact h
  · split
    · exact h
    · split
      · intro nm i hl
        simp only [alookup_cons] at hl
        rw [alookup_cons]
        split at hl
        · injection hl with hi
          subst hi
          simp
        · split
          · simp
          · exact h nm i hl
      · exact h

theorem cacheConsistent_build_curves (s : Session) (ms : List Metadata)
    (h : cacheConsistent s) : cacheConsistent (s.build_curves ms).1 := by
  induction ms generalizing s with
  | nil => exact h
  | cons m rest ih =>
    have h1 : cacheConsistent (s.build_curve m).1 :=
      cacheConsistent_build_curve s m h
    rw [Session.build_curves]
    split
    next s1 c heq =>
      rw [heq] at h1
      have h2 := ih s1 h1
      split
      next s2 cs heq2 => rw [heq2] at h2; exact h2
      next s2 e heq2 => rw [heq2] at h2; exact h2
    next s1 e heq =>
      rw [heq] at h1
      exact h1

theorem cacheConsistent_handle_single (s : Session) (r : CurveResponse)
    (h : cacheConsistent s) :
    cacheConsistent (s.handle_single_curve_response r).1 := by
  rw [Session.handle_single_curve_response]
  split
  · exact h
  · exact cacheConsistent_build_curve s r.jsonBody h

theorem cacheConsistent_handle_multi (s : Session) (r : MultiResponse)
    (h : cacheConsistent s) :
    cacheConsistent (s.handle_multi_curve_response r).1 := by
  rw [Session.handle_multi_curve_response]
  split
  · exact h
  · exact cacheConsistent_build_curves s r.jsonBody h

/-- C9: cache consistency — every name-cache entry points to an id
present in the curve cache — is preserved by every `Session` operation
(`get_curve`, `search`, `make_curve`, `get_attribute`, `_build_curve`,
and both configuration calls); and at the moment of insertion a
successful `_build_curve` leaves the curve cache at the new id holding
exactly the curve whose name the name cache maps to that id. -/
theorem claim_C9_cache_consistency :
    (∀ (s : Session) (op : SessionOp),
      cacheConsistent s → cacheConsistent (s.applyOp op)) ∧
    (∀ (s s' : Session) (m : Metadata) (c : Curve),
      s.build_curve m = (s', .ok c) →
      alookup s'.curve_cache c.id = some c ∧
      alookup s'.name_cache c.name = some c.id) := by
  constructor
  · intro s op h
    cases op with
    | getCurveOp id nm r =>
      show cacheConsistent (s.get_curve id nm r).1
      rw [Session.get_curve]
      split
      · exact h
      · exact h
      · exact cacheConsistent_handle_single s r h
    | searchOp kwargs r =>
      show cacheConsistent (s.search kwargs r).1
      rw [Session.search]
      split
      · exact cacheConsistent_handle_multi s r h
      · exact h
    | makeCurveOp id ct => exact h
    | getAttributeOp attr r => exact h
    | buildCurveOp m => exact cacheConsistent_build_curve s m h
    | readConfigFileOp cfg =>
      show cacheConsistent (s.read_config_file cfg).1
      rw [Session.read_config_file]
      split
      · exact h
      · split
        · exact h
        · exact h
    | configureSessionOp cid secret aub =>
      show cacheConsistent (s.configure cid secret aub).1
      rw [Session.configure]
      split
      · exact h
      · exact h
  · intro s s' m c hbc
    unfold Session.build_curve at hbc
    split at hbc
    · simp at hbc
    · split at hbc
      · simp at hbc
      · split at hbc
        · rw [Prod.mk.injEq] at hbc
          obtain ⟨hs, hc⟩ := hbc
          injection hc with hc
          subst hs
          subst hc
          constructor
          · rw [alookup_cons, if_pos rfl]
          · rw [alookup_cons, if_pos rfl]
        · simp at hbc

/-- C9 witness: building the scenario-6 curve on a fresh session keeps
the caches consistent, and its insertion leaves `curveCache[42]` holding
the curve named `Oslo Temp` that `nameCache` maps to 42. -/
theorem claim_C9_cache_consistency_witness :
    cacheConsistent (Session.new.applyOp (.buildCurveOp m42)) ∧
    alookup s42.curve_cache
      (Curve.id ⟨.timeSeries, 42, some m42⟩) =
        some ⟨.timeSeries, 42, some m42⟩ ∧
    alookup s42.name_cache
      (Curve.name ⟨.timeSeries, 42, some m42⟩) =
        some (Curve.id ⟨.timeSeries, 42, some m42⟩) :=
  ⟨claim_C9_cache_consistency.1 Session.new (.buildCurveOp m42)
      (fun nm i hl => by simp [Session.new, alookup] at hl),
   (claim_C9_cache_consistency.2 Session.new s42 m42
      ⟨.timeSeries, 42, some m42⟩ rfl).1,
   (claim_C9_cache_consistency.2 Session.new s42 m42
      ⟨.timeSeries, 42, some m42⟩ rfl).2⟩

/-- C10: with `auth` unset and a configuration file whose `auth_type` is
not `'OAuth'`, `read_config_file` returns successfully without setting
`auth` — the session stays unconfigured, so a subsequent `configure` or
`read_config_file` call succeeds instead of raising `ConfigException` —
while the file's `urlbase` is still applied. -/
theorem claim_C10_non_oauth_leaves_unconfigured :
    ∀ (s : Session) (cfg : ConfigFile), s.auth = none →
      cfg.auth_type ≠ "OAuth" →
      s.read_config_file cfg =
        ({ s with urlbase := cfg.urlbase }, .ok ()) ∧
      (s.read_config_file cfg).1.auth = none ∧
      (s.read_config_file cfg).1.urlbase = cfg.urlbase ∧
      (∀ cid secret aub,
        ((s.read_config_file cfg).1.configure cid secret aub).2 = .ok ()) ∧
      (∀ cfg2 : ConfigFile,
        ((s.read_config_file cfg).1.read_config_file cfg2).2 = .ok ()) := by
  intro s cfg hauth hat
  have hread : s.read_config_file cfg =
      ({ s with urlbase := cfg.urlbase }, .ok ()) := by
    simp [Session.read_config_file, hauth, hat]
  refine ⟨hread, ?_, ?_, ?_, ?_⟩ <;> rw [hread]
  · exact hauth
  · intro cid secret aub
    simp [Session.configure, hauth]
  · intro cfg2
    rw [Session.read_config_file]
    simp only [hauth]
    split
    · simp at *
    · split <;> rfl

/-- C10 witness: a non-OAuth config file on a fresh session leaves
`auth` unset and a later `configure` succeeds. -/
theorem claim_C10_non_oauth_leaves_unconfigured_witness :
    (Session.new.read_config_file cfgNoAuth).1.auth = none ∧
    ((Session.new.read_config_file cfgNoAuth).1.configure
        "id" "secret" none).2 = .ok () :=
  ⟨(claim_C10_non_oauth_leaves_unconfigured Session.new cfgNoAuth
      rfl (by decide)).2.1,
   (claim_C10_non_oauth_leaves_unconfigured Session.new cfgNoAuth
      rfl (by decide)).2.2.2.1 "id" "secret" none⟩

end Wapi
